import Mathlib

/-!
Shallow embedding of the venue-recommendation repository's core:
the Yelp response model (`src/mcp_server/yelp/models.py`), the Yelp search
client (`src/mcp_server/yelp/client.py`, including its tenacity retry
decorator and HTTP-status error translation), and the MCP tool layer
(`src/mcp_server/server.py`, `search_yelp_businesses`).

Conventions of the embedding:
* Python/JSON numbers are modelled as `ℚ` (floats) and `ℤ` (ints); Python
  strings as `String`; `None`-able values as `Option`.
* A value that Python treats as falsy (`None`, `0`, `""`, `[]`) is tested
  explicitly where the source uses truthiness.
* Exceptions are modelled as `Except` results; the distinct Python exception
  classes that can cross the functions' boundaries are the constructors of
  `PyExc`.
-/

set_option autoImplicit false

namespace VenueRec

/-! ### JSON values

A parsed JSON document, as returned by `response.json()`.  Objects are
association lists of fields; the repository never relies on duplicate keys. -/

inductive JValue where
  | null
  | bool (b : Bool)
  | num (q : ℚ)
  | str (s : String)
  | arr (items : List JValue)
  | obj (fields : List (String × JValue))

/-- Dictionary lookup on a JSON object's field list (Python `dict` access). -/
def lookupKey (kvs : List (String × JValue)) (k : String) : Option JValue :=
  (kvs.find? (fun p => p.1 = k)).map Prod.snd

/-- Python `str()` of a JSON value, used only when the code interpolates a
non-string JSON value into a message.  String, bool and null renderings are
exact; the numeric rendering is a placeholder (no claim exercises it). -/
def pyStr : JValue → String
  | .null => "None"
  | .bool true => "True"
  | .bool false => "False"
  | .num q => toString q
  | .str s => s
  | .arr _ => "<list>"
  | .obj _ => "<dict>"

/-! ### Response model (`src/mcp_server/yelp/models.py`)

Each pydantic `BaseModel` becomes a structure; field defaults follow the
source.  No field of any model declares a range constraint (no `ge`/`le`),
so construction performs structural validation only. -/

/-- Geographic coordinates (`Coordinates`). -/
structure Coordinates where
  latitude : ℚ
  longitude : ℚ

/-- Business location information (`Location`). -/
structure Location where
  address1 : Option String := none
  address2 : Option String := none
  address3 : Option String := none
  city : Option String := none
  zip_code : Option String := none
  country : Option String := none
  state : Option String := none
  display_address : List String := []

/-- Business category (`Category`). -/
structure Category where
  «alias» : String
  title : String

/-- Individual opening time slot (`OpenSlot`). -/
structure OpenSlot where
  is_overnight : Bool := false
  start : String
  «end» : String
  day : ℤ

/-- Business opening hours (`BusinessHours`). -/
structure BusinessHours where
  «open» : List OpenSlot := []
  hours_type : String := "REGULAR"
  is_open_now : Bool := false

/-- Business attributes from Yelp (`Attributes`). -/
structure Attributes where
  business_temp_closed : Option Bool := none
  menu_url : Option String := none
  open24_hours : Option Bool := none
  waitlist_reservation : Option Bool := none

/-- Business information from the Yelp API (`Business`). -/
structure Business where
  id : String
  «alias» : String
  name : String
  image_url : Option String := none
  is_closed : Bool := false
  url : String
  review_count : ℤ := 0
  categories : List Category := []
  rating : ℚ := 0
  coordinates : Coordinates
  transactions : List String := []
  price : Option String := none
  location : Location
  phone : Option String := none
  display_phone : Option String := none
  distance : Option ℚ := none
  business_hours : List BusinessHours := []
  attributes : Option Attributes := none

/-- Center coordinates of the search region (`RegionCenter`). -/
structure RegionCenter where
  longitude : ℚ
  latitude : ℚ

/-- Search region information (`Region`). -/
structure Region where
  center : RegionCenter

/-- Response from the Yelp Business Search API (`SearchResponse`). -/
structure SearchResponse where
  businesses : List Business := []
  total : ℤ := 0
  region : Option Region := none

/-- `Business.get_price_level`: `len(self.price) if self.price else 0`.
A present-but-empty price string is falsy in Python, giving 0. -/
def Business.get_price_level (b : Business) : ℕ :=
  match b.price with
  | some p => if p = "" then 0 else p.length
  | none => 0

/-- `Business.get_categories_str`: `", ".join(cat.title for cat in self.categories)`. -/
def Business.get_categories_str (b : Business) : String :=
  String.intercalate ", " (b.categories.map Category.title)

/-- `Business.get_address_str`: `", ".join(self.location.display_address)`. -/
def Business.get_address_str (b : Business) : String :=
  String.intercalate ", " b.location.display_address

/-- `Business.is_open_now`: returns the first `BusinessHours` entry's
`is_open_now` snapshot when the list is non-empty (Python truthiness on the
list), and `False` otherwise. -/
def Business.is_open_now (b : Business) : Bool :=
  match b.business_hours with
  | h :: _ => h.is_open_now
  | [] => false

/-- `Business.get_menu_url`: the attributes' menu URL when the `Attributes`
object is present (an instance is always truthy), else `None`. -/
def Business.get_menu_url (b : Business) : Option String :=
  match b.attributes with
  | some a => a.menu_url
  | none => none

/-! ### Construction from parsed JSON (pydantic validation)

`SearchResponse(**data)` validates the parsed JSON tree against the models.
Pydantic's lax validation is modelled structurally, exactly as far as the
source models constrain it: a required field must be present (and not null)
with a value of its declared type; an optional (`| None`) field may be
absent or null; a defaulted field takes its default when absent; an `int`
field accepts a number with no fractional part, a `float` field any number;
unknown keys are ignored.  The source models declare no numeric range
constraints, so none are checked here. -/

/-- Validate a JSON value as a Python `str`. -/
def asStr : JValue → Except String String
  | .str s => .ok s
  | _ => .error "Input should be a valid string"

/-- Validate a JSON value as a Python `bool`. -/
def asBool : JValue → Except String Bool
  | .bool b => .ok b
  | _ => .error "Input should be a valid boolean"

/-- Validate a JSON value as a Python `int` (a number without fractional part). -/
def asInt : JValue → Except String ℤ
  | .num q => if q.den = 1 then .ok q.num else .error "Input should be a valid integer"
  | _ => .error "Input should be a valid integer"

/-- Validate a JSON value as a Python `float` (any JSON number). -/
def asRat : JValue → Except String ℚ
  | .num q => .ok q
  | _ => .error "Input should be a valid number"

/-- Validate a JSON value as a list, elementwise. -/
def asList {α : Type} (f : JValue → Except String α) : JValue → Except String (List α)
  | .arr items => items.mapM f
  | _ => .error "Input should be a valid list"

/-- A required model field: must be present and non-null. -/
def reqField {α : Type} (kvs : List (String × JValue)) (k : String)
    (f : JValue → Except String α) : Except String α :=
  match lookupKey kvs k with
  | none => .error (k ++ ": Field required")
  | some v => f v

/-- An optional (`T | None = None`) model field: absent or null gives `none`. -/
def optField {α : Type} (kvs : List (String × JValue)) (k : String)
    (f : JValue → Except String α) : Except String (Option α) :=
  match lookupKey kvs k with
  | none => .ok none
  | some .null => .ok none
  | some v => f v >>= fun a => .ok (some a)

/-- A defaulted non-optional model field: absent gives the default, a present
value (null included) must validate. -/
def defField {α : Type} (kvs : List (String × JValue)) (k : String)
    (f : JValue → Except String α) (dflt : α) : Except String α :=
  match lookupKey kvs k with
  | none => .ok dflt
  | some v => f v

/-- Construct `Coordinates` from JSON. -/
def parseCoordinates : JValue → Except String Coordinates
  | .obj kvs => do
    let latitude ← reqField kvs "latitude" asRat
    let longitude ← reqField kvs "longitude" asRat
    .ok { latitude, longitude }
  | _ => .error "Coordinates: Input should be an object"

/-- Construct `Location` from JSON. -/
def parseLocation : JValue → Except String Location
  | .obj kvs => do
    let address1 ← optField kvs "address1" asStr
    let address2 ← optField kvs "address2" asStr
    let address3 ← optField kvs "address3" asStr
    let city ← optField kvs "city" asStr
    let zip_code ← optField kvs "zip_code" asStr
    let country ← optField kvs "country" asStr
    let state ← optField kvs "state" asStr
    let display_address ← defField kvs "display_address" (asList asStr) []
    .ok { address1, address2, address3, city, zip_code, country, state, display_address }
  | _ => .error "Location: Input should be an object"

/-- Construct `Category` from JSON. -/
def parseCategory : JValue → Except String Category
  | .obj kvs => do
    let a ← reqField kvs "alias" asStr
    let title ← reqField kvs "title" asStr
    .ok { «alias» := a, title }
  | _ => .error "Category: Input should be an object"

/-- Construct `OpenSlot` from JSON. -/
def parseOpenSlot : JValue → Except String OpenSlot
  | .obj kvs => do
    let is_overnight ← defField kvs "is_overnight" asBool false
    let start ← reqField kvs "start" asStr
    let e ← reqField kvs "end" asStr
    let day ← reqField kvs "day" asInt
    .ok { is_overnight, start, «end» := e, day }
  | _ => .error "OpenSlot: Input should be an object"

/-- Construct `BusinessHours` from JSON. -/
def parseBusinessHours : JValue → Except String BusinessHours
  | .obj kvs => do
    let o ← defField kvs "open" (asList parseOpenSlot) []
    let hours_type ← defField kvs "hours_type" asStr "REGULAR"
    let is_open_now ← defField kvs "is_open_now" asBool false
    .ok { «open» := o, hours_type, is_open_now }
  | _ => .error "BusinessHours: Input should be an object"

/-- Construct `Attributes` from JSON. -/
def parseAttributes : JValue → Except String Attributes
  | .obj kvs => do
    let business_temp_closed ← optField kvs "business_temp_closed" asBool
    let menu_url ← optField kvs "menu_url" asStr
    let open24_hours ← optField kvs "open24_hours" asBool
    let waitlist_reservation ← optField kvs "waitlist_reservation" asBool
    .ok { business_temp_closed, menu_url, open24_hours, waitlist_reservation }
  | _ => .error "Attributes: Input should be an object"

/-- Construct `Business` from JSON.  Mirrors the `Business` model field by
field: required fields `id`, `alias`, `name`, `url`, `coordinates`,
`location`; everything else optional or defaulted as declared. -/
def parseBusiness : JValue → Except String Business
  | .obj kvs => do
    let id ← reqField kvs "id" asStr
    let a ← reqField kvs "alias" asStr
    let name ← reqField kvs "name" asStr
    let image_url ← optField kvs "image_url" asStr
    let is_closed ← defField kvs "is_closed" asBool false
    let url ← reqField kvs "url" asStr
    let review_count ← defField kvs "review_count" asInt 0
    let categories ← defField kvs "categories" (asList parseCategory) []
    let rating ← defField kvs "rating" asRat 0
    let coordinates ← reqField kvs "coordinates" parseCoordinates
    let transactions ← defField kvs "transactions" (asList asStr) []
    let price ← optField kvs "price" asStr
    let location ← reqField kvs "location" parseLocation
    let phone ← optField kvs "phone" asStr
    let display_phone ← optField kvs "display_phone" asStr
    let distance ← optField kvs "distance" asRat
    let business_hours ← defField kvs "business_hours" (asList parseBusinessHours) []
    let attributes ← optField kvs "attributes" parseAttributes
    .ok { id, «alias» := a, name, image_url, is_closed, url, review_count,
          categories, rating, coordinates, transactions, price, location,
          phone, display_phone, distance, business_hours, attributes }
  | _ => .error "Business: Input should be an object"

/-- Construct `RegionCenter` from JSON. -/
def parseRegionCenter : JValue → Except String RegionCenter
  | .obj kvs => do
    let longitude ← reqField kvs "longitude" asRat
    let latitude ← reqField kvs "latitude" asRat
    .ok { longitude, latitude }
  | _ => .error "RegionCenter: Input should be an object"

/-- Construct `Region` from JSON. -/
def parseRegion : JValue → Except String Region
  | .obj kvs => do
    let center ← reqField kvs "center" parseRegionCenter
    .ok { center }
  | _ => .error "Region: Input should be an object"

/-- Construct `SearchResponse` from JSON (`SearchResponse(**data)`). -/
def parseSearchResponse : JValue → Except String SearchResponse
  | .obj kvs => do
    let businesses ← defField kvs "businesses" (asList parseBusiness) []
    let total ← defField kvs "total" asInt 0
    let region ← optField kvs "region" parseRegion
    .ok { businesses, total, region }
  | _ => .error "SearchResponse: Input should be an object"

/-! ### Search client (`src/mcp_server/yelp/client.py`)

The HTTP layer is abstracted as an oracle giving, for each physical request
the client would issue, the outcome of that request.  The client's own code
(the guard, the query-parameter construction, the `try`/`except` translation,
and the tenacity `@retry` decorator) is embedded faithfully. -/

/-- Result of `response.json()`: either a parsed JSON value, or the body is
not valid JSON, in which case `.json()` raises a decode error whose text is
carried. -/
inductive JsonBody where
  | parsed (v : JValue)
  | invalid (text : String)

/-- Outcome of one physical HTTP request (`self._client.get(...)` followed by
`response.raise_for_status()`).  `response status body text` is a completed
HTTP response: `raise_for_status` raises `httpx.HTTPStatusError` (with
`str(e) = text`) unless the status is 2xx.  The remaining constructors are
the httpx exception classes `get` itself may raise: `httpx.TimeoutException`,
`httpx.ConnectError` (a subclass of `httpx.NetworkError`), other
`httpx.NetworkError`s, other `httpx.RequestError`s, and any other
exception. -/
inductive AttemptOutcome where
  | response (status : ℤ) (body : JsonBody) (text : String)
  | timeout (text : String)
  | connectError (text : String)
  | networkError (text : String)
  | otherRequestError (text : String)
  | otherError (text : String)

/-- The exceptions that can be raised by (or through) `search_businesses`.
The `httpx` constructor represents a raw httpx exception reaching the retry
decorator; the embedding proves it never does, but the decorator's retry
predicate is defined over all of these. -/
inductive PyExc where
  | yelpAPIError (msg : String)
  | yelpRateLimitError (msg : String)
  | yelpAuthError (msg : String)
  | runtimeError (msg : String)
  | jsonDecodeError (text : String)
  | attributeError (text : String)
  | httpx (o : AttemptOutcome)

/-- `isinstance(e, YelpAPIError)`: true for `YelpAPIError` and its subclasses
`YelpAuthError` and `YelpRateLimitError` (`src/mcp_server/exceptions.py`). -/
def PyExc.isYelpAPIError : PyExc → Bool
  | .yelpAPIError _ => true
  | .yelpRateLimitError _ => true
  | .yelpAuthError _ => true
  | _ => false

/-- Python `str(e)` for each modelled exception. -/
def PyExc.text : PyExc → String
  | .yelpAPIError m => m
  | .yelpRateLimitError m => m
  | .yelpAuthError m => m
  | .runtimeError m => m
  | .jsonDecodeError t => t
  | .attributeError t => t
  | .httpx (.response _ _ t) => t
  | .httpx (.timeout t) => t
  | .httpx (.connectError t) => t
  | .httpx (.networkError t) => t
  | .httpx (.otherRequestError t) => t
  | .httpx (.otherError t) => t

/-- `isinstance(e, httpx.TimeoutException)`. -/
def isTimeoutException : PyExc → Bool
  | .httpx (.timeout _) => true
  | _ => false

/-- `isinstance(e, httpx.NetworkError)` (`ConnectError` is a subclass). -/
def isNetworkError : PyExc → Bool
  | .httpx (.networkError _) => true
  | .httpx (.connectError _) => true
  | _ => false

/-- `isinstance(e, httpx.ConnectError)`. -/
def isConnectError : PyExc → Bool
  | .httpx (.connectError _) => true
  | _ => false

/-- `_is_retryable_http_error`: true iff the exception is an
`httpx.HTTPStatusError` whose response status is ≥ 500.  In the embedding an
un-translated status error is `PyExc.httpx (.response status _ _)` with a
non-2xx status. -/
def is_retryable_http_error : PyExc → Bool
  | .httpx (.response status _ _) => 500 ≤ status
  | _ => false

/-- The `@retry` decorator's retry condition:
`retry_if_exception_type(TimeoutException) | retry_if_exception_type(NetworkError)
 | retry_if_exception_type(ConnectError) | retry_if_exception(_is_retryable_http_error)`. -/
def retryCondition (e : PyExc) : Bool :=
  isTimeoutException e || isNetworkError e || isConnectError e
    || is_retryable_http_error e

/-- Python `v.get(key, default)`: dictionary lookup with default on a JSON
value; raises `AttributeError` when the value is not a dict. -/
def jsonGet (v : JValue) (key : String) (dflt : JValue) : Except PyExc JValue :=
  match v with
  | .obj kvs => .ok ((lookupKey kvs key).getD dflt)
  | _ => .error (.attributeError "object has no attribute get")

/-- The 400 branch of the `except httpx.HTTPStatusError` handler
(client.py lines 150-154): `e.response.json().get("error", \x7b\x7d).get("description", str(e))`.
The `.json()` call and the `.get` chain run *inside* the handler, so an
exception they raise propagates out of `search_businesses` untranslated. -/
def translate400 : JsonBody → String → Except PyExc SearchResponse
  | .invalid t, _ => .error (.jsonDecodeError t)
  | .parsed v, text =>
    match jsonGet v "error" (.obj []) with
    | .error e => .error e
    | .ok errObj =>
      match jsonGet errObj "description" (.str text) with
      | .error e => .error e
      | .ok desc => .error (.yelpAPIError ("Bad request: " ++ pyStr desc))

/-- The `except httpx.HTTPStatusError` handler (client.py lines 145-156),
given the response's status, parsed-or-not body, and `str(e) = text`. -/
def translateStatusError (status : ℤ) (body : JsonBody) (text : String) :
    Except PyExc SearchResponse :=
  if status = 401 then .error (.yelpAuthError "Invalid Yelp API key")
  else if status = 429 then .error (.yelpRateLimitError "Yelp API rate limit exceeded")
  else if status = 400 then translate400 body text
  else .error (.yelpAPIError ("Yelp API error: " ++ text))

/-- The body of `search_businesses`'s `try`/`except` (client.py lines
133-166) for one physical request outcome: on a 2xx response, parse the body
into a `SearchResponse` (a decode or validation failure is caught by
`except Exception` and wrapped as an unexpected `YelpAPIError`); otherwise
translate the raised exception per the `except` clauses in source order. -/
def searchAttempt : AttemptOutcome → Except PyExc SearchResponse
  | .response status body text =>
    if 200 ≤ status ∧ status < 300 then
      match body with
      | .invalid t => .error (.yelpAPIError ("Unexpected error: " ++ t))
      | .parsed v =>
        match parseSearchResponse v with
        | .ok r => .ok r
        | .error m => .error (.yelpAPIError ("Unexpected error: " ++ m))
    else translateStatusError status body text
  | .timeout _ => .error (.yelpAPIError "Yelp API request timed out")
  | .connectError t => .error (.yelpAPIError ("Network error: " ++ t))
  | .networkError t => .error (.yelpAPIError ("Network error: " ++ t))
  | .otherRequestError t => .error (.yelpAPIError ("Network error: " ++ t))
  | .otherError t => .error (.yelpAPIError ("Unexpected error: " ++ t))

/-- One invocation of the wrapped `search_businesses` body: the
`if not self._client` guard runs before anything else; only when the client
is initialised is an HTTP request issued and its outcome translated. -/
def search_businesses_body (initialised : Bool) (o : AttemptOutcome) :
    Except PyExc SearchResponse :=
  if initialised then searchAttempt o
  else .error (.runtimeError "Client not initialised. Use async context manager.")

/-- tenacity `wait_exponential(multiplier=1, min=1, max=10)`: the backoff
delay in seconds after the `n`-th failed attempt
(`max(max(0, min), min(multiplier * 2^(n-1), max))`). -/
def waitExponential (multiplier minW maxW : ℚ) (n : ℕ) : ℚ :=
  max (max 0 minW) (min (multiplier * 2 ^ (n - 1)) maxW)

/-- `stop=stop_after_attempt(3)`. -/
def stopAfterAttempt : ℕ := 3

/-- Result of one decorated call: the value returned or exception raised, the
number of invocations of the wrapped function, the number of physical HTTP
requests issued, and the backoff delays slept between attempts. -/
structure RunResult (α : Type) where
  result : Except PyExc α
  attemptsMade : ℕ
  httpRequests : ℕ
  backoffWaits : List ℚ

/-- The tenacity retry loop with `reraise=True`: run attempt `n`; return a
success immediately; raise a failure immediately unless the retry condition
holds; when it holds, stop (re-raising the last exception) once the attempt
budget is exhausted, else sleep the exponential backoff and try again.
`fuel` is the number of further attempts still allowed. -/
def tenacityGo {α : Type} (f : ℕ → Except PyExc α) :
    ℕ → ℕ → Except PyExc α × ℕ × List ℚ
  | n, fuel =>
    match f n with
    | .ok a => (.ok a, n, [])
    | .error e =>
      if retryCondition e then
        match fuel with
        | 0 => (.error e, n, [])
        | fuel' + 1 =>
          let w := waitExponential 1 1 10 n
          let r := tenacityGo f (n + 1) fuel'
          (r.1, r.2.1, w :: r.2.2)
      else (.error e, n, [])

/-- A full decorated `search_businesses` call: tenacity invokes the wrapped
body up to `stopAfterAttempt` times, the `k`-th physical request (when one is
issued) having outcome `outcomes k`. -/
def search_businesses_run (initialised : Bool) (outcomes : ℕ → AttemptOutcome) :
    RunResult SearchResponse :=
  let r := tenacityGo (fun k => search_businesses_body initialised (outcomes k))
    1 (stopAfterAttempt - 1)
  { result := r.1
    attemptsMade := r.2.1
    httpRequests := if initialised then r.2.1 else 0
    backoffWaits := r.2.2 }

/-! ### Query-parameter construction (client.py lines 116-131) -/

/-- The keyword arguments of `search_businesses`. -/
structure SearchArgs where
  location : String
  term : Option String := none
  categories : Option String := none
  price : Option String := none
  radius : Option ℤ := none
  limit : ℤ := 20
  sort_by : String := "best_match"
  open_now : Option Bool := none

/-- The query parameters actually transmitted: a `none` field is omitted from
the request. -/
structure QueryParams where
  location : String
  limit : ℤ
  sort_by : String
  term : Option String := none
  categories : Option String := none
  price : Option String := none
  radius : Option ℤ := none
  open_now : Option String := none

/-- Python truthiness of an optional string (`if term:`): present and
non-empty. -/
def truthyStr : Option String → Bool
  | some s => !(s = "")
  | none => false

/-- Build the transmitted query parameters.  `limit` is always sent as
`min(limit, 50)`; `term`/`categories`/`price` are sent when truthy;
`radius` is sent as `min(radius, 40000)` when truthy (a present zero radius
is falsy and omitted); `open_now` is sent as `str(open_now).lower()` when it
is not `None`. -/
def buildParams (a : SearchArgs) : QueryParams :=
  { location := a.location
    limit := min a.limit 50
    sort_by := a.sort_by
    term := if truthyStr a.term then a.term else none
    categories := if truthyStr a.categories then a.categories else none
    price := if truthyStr a.price then a.price else none
    radius :=
      match a.radius with
      | some r => if r = 0 then none else some (min r 40000)
      | none => none
    open_now :=
      match a.open_now with
      | some b => some (if b then "true" else "false")
      | none => none }

/-! ### Tool layer (`src/mcp_server/server.py`, `search_yelp_businesses`) -/

/-- Python `round(x, ndigits)` rounds half to even.  `pyRoundHalfEven`
rounds a rational to the nearest integer, ties to even. -/
def pyRoundHalfEven (q : ℚ) : ℤ :=
  let f := ⌊q⌋
  let frac := q - f
  if frac < 1 / 2 then f
  else if 1 / 2 < frac then f + 1
  else if f % 2 = 0 then f else f + 1

/-- Python `round(x, 2)`. -/
def pyRound2 (q : ℚ) : ℚ := pyRoundHalfEven (q * 100) / 100

/-- Python `f"\x7bx:.1f\x7d"` on a non-negative value: fixed-point rendering
with one decimal digit, rounding half to even. -/
def formatFixed1 (q : ℚ) : String :=
  let n := pyRoundHalfEven (q * 10)
  let sign := if n < 0 then "-" else ""
  sign ++ toString (n.natAbs / 10) ++ "." ++ toString (n.natAbs % 10)

/-- The per-business dictionary the tool layer builds: `model_dump()`
(carried as `base`) plus the computed/overridden keys added in
server.py lines 104-116. -/
structure BusinessOut where
  base : Business
  price : String
  distance_meters : Option ℚ
  distance_miles : Option ℚ
  categories : String
  address : String
  phone : String

/-- Build one business dictionary (server.py lines 104-116).  The distance
guards use Python truthiness: `None` and `0.0` both yield `None`; the price
and phone fallbacks use `or`, so empty strings also fall through. -/
def businessOut (b : Business) : BusinessOut :=
  { base := b
    price := match b.price with
      | some p => if p = "" then "N/A" else p
      | none => "N/A"
    distance_meters := match b.distance with
      | some d => if d = 0 then none else some (pyRound2 d)
      | none => none
    distance_miles := match b.distance with
      | some d => if d = 0 then none else some (pyRound2 (d / (160934 / 100)))
      | none => none
    categories := b.get_categories_str
    address := b.get_address_str
    phone :=
      if truthyStr b.display_phone then b.display_phone.getD ""
      else if truthyStr b.phone then b.phone.getD ""
      else "N/A" }

/-- The dictionary returned by the tool.  `error = none` models the success
shape, which has no `error` key at all. -/
structure ToolPayload where
  businesses : List BusinessOut
  total : ℤ
  count : ℕ
  summary : String
  error : Option String

/-- The summary line (server.py lines 119-124): count, plus the average
rating when at least one business was returned. -/
def toolSummary (outs : List BusinessOut) : String :=
  let base := "Found " ++ toString outs.length ++ " businesses"
  if 0 < outs.length then
    let avg := (outs.map (fun o => o.base.rating)).sum / (outs.length : ℚ)
    base ++ " (average rating: " ++ formatFixed1 avg ++ ")"
  else base

/-- The tool `search_yelp_businesses` (server.py lines 88-156), given the
outcome of the client call it wraps: a successful `SearchResponse` is shaped
into the success payload; a raised `YelpAPIError` (any subclass) is caught
and converted to an error payload with summary `"Error: ..."`; any other
exception is caught by the final handler with summary `"Unexpected error: ..."`.
The function is total: no exception crosses the tool boundary. -/
def search_yelp_businesses (r : Except PyExc SearchResponse) : ToolPayload :=
  match r with
  | .ok resp =>
    let outs := resp.businesses.map businessOut
    { businesses := outs
      total := resp.total
      count := outs.length
      summary := toolSummary outs
      error := none }
  | .error e =>
    if e.isYelpAPIError then
      { businesses := [], total := 0, count := 0
        summary := "Error: " ++ e.text
        error := some e.text }
    else
      { businesses := [], total := 0, count := 0
        summary := "Unexpected error: " ++ e.text
        error := some e.text }

/-! ### Concrete sample data

Concrete inputs used to instantiate the theorems, shaped like the repository's
own test fixtures (`tests/test_yelp_client.py`, `tests/test_yelp_models.py`). -/

/-- A minimal well-formed business (only required fields; the rest default). -/
def baseBusiness : Business :=
  { id := "business1"
    «alias» := "test-restaurant-london"
    name := "Test Restaurant"
    url := "https://yelp.com/test-restaurant"
    coordinates := { latitude := 51, longitude := 0 }
    location := {} }

/-- A business with no `BusinessHours` entries. -/
def bNoHours : Business := baseBusiness

/-- A business whose first (only) hours entry has a true open-now snapshot. -/
def bOpenNow : Business :=
  { baseBusiness with business_hours := [{ is_open_now := true }] }

/-- A business whose distance is present but exactly 0.0. -/
def bZeroDistance : Business := { baseBusiness with distance := some 0 }

/-- A business 500.0 meters away. -/
def bPosDistance : Business := { baseBusiness with distance := some 500 }

/-- A two-business response exercising both distance branches. -/
def respDistances : SearchResponse :=
  { businesses := [bZeroDistance, bPosDistance], total := 2 }

/-- A JSON business object with every field populated. -/
def kvsFull : List (String × JValue) :=
  [ ("id", .str "business1")
  , ("alias", .str "test-restaurant-london")
  , ("name", .str "Test Restaurant")
  , ("image_url", .str "https://img.example.com/1.jpg")
  , ("is_closed", .bool false)
  , ("url", .str "https://yelp.com/test-restaurant")
  , ("review_count", .num 100)
  , ("categories", .arr
      [ .obj [("alias", .str "italian"), ("title", .str "Italian")]
      , .obj [("alias", .str "pizza"), ("title", .str "Pizza")] ])
  , ("rating", .num (9 / 2))
  , ("coordinates", .obj [("latitude", .num (515074 / 10000)), ("longitude", .num (-1278 / 10000))])
  , ("transactions", .arr [.str "delivery"])
  , ("price", .str "££")
  , ("location", .obj
      [ ("address1", .str "123 Test St")
      , ("city", .str "London")
      , ("country", .str "UK")
      , ("display_address", .arr [.str "123 Test St", .str "London"]) ])
  , ("phone", .str "+442012345678")
  , ("display_phone", .str "+44 20 1234 5678")
  , ("distance", .num 500)
  , ("business_hours", .arr
      [ .obj [ ("open", .arr [.obj [("is_overnight", .bool false), ("start", .str "0900"),
                                    ("end", .str "1700"), ("day", .num 0)]])
             , ("hours_type", .str "REGULAR")
             , ("is_open_now", .bool true) ] ])
  , ("attributes", .obj [("menu_url", .str "https://example.com/menu")]) ]

/-- The `Business` value `parseBusiness` constructs from `kvsFull`. -/
def bFull : Business :=
  { id := "business1"
    «alias» := "test-restaurant-london"
    name := "Test Restaurant"
    image_url := some "https://img.example.com/1.jpg"
    is_closed := false
    url := "https://yelp.com/test-restaurant"
    review_count := 100
    categories := [{ «alias» := "italian", title := "Italian" },
                   { «alias» := "pizza", title := "Pizza" }]
    rating := 9 / 2
    coordinates := { latitude := 515074 / 10000, longitude := -1278 / 10000 }
    transactions := ["delivery"]
    price := some "££"
    location := { address1 := some "123 Test St"
                  city := some "London"
                  country := some "UK"
                  display_address := ["123 Test St", "London"] }
    phone := some "+442012345678"
    display_phone := some "+44 20 1234 5678"
    distance := some 500
    business_hours := [{ «open» := [{ is_overnight := false, start := "0900",
                                      «end» := "1700", day := 0 }]
                         hours_type := "REGULAR"
                         is_open_now := true }]
    attributes := some { menu_url := some "https://example.com/menu" } }

/-- A JSON business object whose numeric fields violate the spec's data-model
bounds: rating 6 (> 5), review_count -3 (< 0), distance -2 (< 0). -/
def badBusinessJson : JValue :=
  .obj
    [ ("id", .str "b1")
    , ("alias", .str "b-1")
    , ("name", .str "Bad")
    , ("url", .str "https://example.com/bad")
    , ("rating", .num 6)
    , ("review_count", .num (-3))
    , ("distance", .num (-2))
    , ("coordinates", .obj [("latitude", .num 51), ("longitude", .num 0)])
    , ("location", .obj []) ]

/-- The `Business` value `parseBusiness` accepts for `badBusinessJson`. -/
def badBusiness : Business :=
  { id := "b1"
    «alias» := "b-1"
    name := "Bad"
    url := "https://example.com/bad"
    review_count := -3
    rating := 6
    coordinates := { latitude := 51, longitude := 0 }
    location := {}
    distance := some (-2) }

/-- A JSON business object with arbitrary rating and distance values (and a
fixed negative review count), all other fields fixed and well-formed. -/
def businessProbeJson (rating distance : ℚ) : JValue :=
  .obj
    [ ("id", .str "b1")
    , ("alias", .str "b-1")
    , ("name", .str "B")
    , ("url", .str "https://example.com/b")
    , ("rating", .num rating)
    , ("review_count", .num (-3))
    , ("distance", .num distance)
    , ("coordinates", .obj [("latitude", .num 51), ("longitude", .num 0)])
    , ("location", .obj []) ]

/-- The `Business` value `parseBusiness` constructs from `businessProbeJson`. -/
def businessProbe (rating distance : ℚ) : Business :=
  { id := "b1"
    «alias» := "b-1"
    name := "B"
    url := "https://example.com/b"
    review_count := -3
    rating := rating
    coordinates := { latitude := 51, longitude := 0 }
    location := {}
    distance := some distance }

/-- The JSON object carried by a concrete 400 response:
`\x7b"error": \x7b"code": ..., "description": ...\x7d\x7d`. -/
def errKvs400 : List (String × JValue) :=
  [("code", .str "VALIDATION_ERROR"), ("description", .str "Invalid location parameter")]

/-- Top-level field list of the concrete 400 response body. -/
def kvs400 : List (String × JValue) := [("error", .obj errKvs400)]

/-! ### Supporting lemmas -/

/-- Inversion for `Except` bind. -/
theorem exceptBind_ok {ε α β : Type} (e : Except ε α) (f : α → Except ε β) (b : β)
    (h : (e >>= f) = .ok b) : ∃ a, e = .ok a ∧ f a = .ok b := by
  cases e with
  | ok a => exact ⟨a, rfl, h⟩
  | error m => simp [Bind.bind, Except.bind] at h

/-- `jsonGet` can only fail with an `AttributeError`. -/
theorem jsonGet_error_shape (v : JValue) (k : String) (dflt : JValue) (e : PyExc)
    (h : jsonGet v k dflt = .error e) : e = .attributeError "object has no attribute get" := by
  cases v <;> simp [jsonGet] at h <;> exact h.symm

/-- The retry condition rejects every exception the client itself raises:
it only matches raw httpx exception classes. -/
theorem retryCondition_non_httpx (e : PyExc) (h : ∀ o, e ≠ .httpx o) :
    retryCondition e = false := by
  cases e with
  | httpx o => exact absurd rfl (h o)
  | _ => rfl

/-- Every error the 400 handler produces is a translated (non-httpx)
exception, hence not retryable. -/
theorem translate400_not_retryable (b : JsonBody) (t : String) (e : PyExc)
    (h : translate400 b t = .error e) : retryCondition e = false := by
  cases b with
  | invalid t' => simp [translate400] at h; cases h; rfl
  | parsed v =>
    rw [translate400] at h
    cases hj : jsonGet v "error" (.obj []) with
    | error e' =>
      simp only [hj] at h
      injection h with h2
      subst h2
      rw [jsonGet_error_shape v "error" (.obj []) e' hj]
      rfl
    | ok errObj =>
      simp only [hj] at h
      cases hj2 : jsonGet errObj "description" (.str t) with
      | error e' =>
        simp only [hj2] at h
        injection h with h2
        subst h2
        rw [jsonGet_error_shape errObj "description" (.str t) e' hj2]
        rfl
      | ok desc => simp only [hj2] at h; cases h; rfl

/-- Every error the status-error handler produces is non-retryable. -/
theorem translateStatusError_not_retryable (s : ℤ) (b : JsonBody) (t : String) (e : PyExc)
    (h : translateStatusError s b t = .error e) : retryCondition e = false := by
  unfold translateStatusError at h
  split_ifs at h with h1 h2 h3
  · cases h; rfl
  · cases h; rfl
  · exact translate400_not_retryable b t e h
  · cases h; rfl

/-- Every error one attempt of the client body produces is non-retryable. -/
theorem searchAttempt_not_retryable (o : AttemptOutcome) (e : PyExc)
    (h : searchAttempt o = .error e) : retryCondition e = false := by
  cases o with
  | response status body text =>
    simp only [searchAttempt] at h
    split_ifs at h with h2xx
    · cases body with
      | invalid t => simp at h; cases h; rfl
      | parsed v =>
        cases hp : parseSearchResponse v with
        | ok r => simp only [hp] at h; exact absurd h (by simp)
        | error m => simp only [hp] at h; cases h; rfl
    · exact translateStatusError_not_retryable status body text e h
  | timeout t => cases h; rfl
  | connectError t => cases h; rfl
  | networkError t => cases h; rfl
  | otherRequestError t => cases h; rfl
  | otherError t => cases h; rfl

/-- Every error a full invocation of the wrapped function raises (guard
included) is non-retryable. -/
theorem search_body_not_retryable (init : Bool) (o : AttemptOutcome) (e : PyExc)
    (h : search_businesses_body init o = .error e) : retryCondition e = false := by
  cases init with
  | true => exact searchAttempt_not_retryable o e h
  | false => simp [search_businesses_body] at h; cases h; rfl

/-- When (as here) the first attempt's failure never satisfies the retry
condition, the tenacity loop performs exactly one attempt and no backoff. -/
theorem tenacityGo_single {α : Type} (f : ℕ → Except PyExc α) (n fuel : ℕ)
    (hf : ∀ e, f n = .error e → retryCondition e = false) :
    tenacityGo f n fuel = (f n, n, []) := by
  unfold tenacityGo
  cases hfn : f n with
  | ok a => rfl
  | error e => simp [hf e hfn]

/-- Shape of every decorated call: because the wrapped body translates each
failure before the decorator can observe it, the retry loop always runs a
single attempt, issues at most one HTTP request and never sleeps. -/
theorem search_run_eq (init : Bool) (outcomes : ℕ → AttemptOutcome) :
    search_businesses_run init outcomes =
      { result := search_businesses_body init (outcomes 1)
        attemptsMade := 1
        httpRequests := if init then 1 else 0
        backoffWaits := [] } := by
  unfold search_businesses_run
  rw [tenacityGo_single _ 1 (stopAfterAttempt - 1)
      (fun e he => search_body_not_retryable init (outcomes 1) e he)]

/-! ### Claim theorems -/

/-- C2: for every search call with `limit > 50` the transmitted `limit`
query parameter is exactly 50, and for every call whose `radius` exceeds
40000 the transmitted `radius` is exactly 40000; `buildParams` is total, so
the over-large values are clamped, never rejected. -/
theorem transmitted_limit_radius_clamped (a : SearchArgs) :
    (50 < a.limit → (buildParams a).limit = 50)
    ∧ (∀ r : ℤ, a.radius = some r → 40000 < r →
        (buildParams a).radius = some 40000) := by
  refine ⟨fun h => ?_, fun r hr h => ?_⟩
  · simp only [buildParams]
    omega
  · have hr0 : r ≠ 0 := by omega
    simp only [buildParams, hr, if_neg hr0]
    congr 1
    omega

/-- Witness for C2 at `limit = 100`, `radius = 50000`. -/
theorem transmitted_limit_radius_clamped_witness :
    (50 : ℤ) < 100 ∧ (40000 : ℤ) < 50000
    ∧ (buildParams { location := "London, UK", radius := some 50000, limit := 100 }).limit = 50
    ∧ (buildParams { location := "London, UK", radius := some 50000, limit := 100 }).radius
        = some 40000 :=
  ⟨by decide, by decide,
   (transmitted_limit_radius_clamped
      { location := "London, UK", radius := some 50000, limit := 100 }).1 (by decide),
   (transmitted_limit_radius_clamped
      { location := "London, UK", radius := some 50000, limit := 100 }).2 50000 rfl (by decide)⟩

/-- C6: `is_open_now` is true iff a first `BusinessHours` entry exists and
its (the canonical first entry's, per the spec's data model) `is_open_now`
snapshot is true; with zero entries it is false. -/
theorem is_open_now_iff_first_entry (b : Business) :
    (b.is_open_now = true ↔
      ∃ hd rest, b.business_hours = hd :: rest ∧ hd.is_open_now = true)
    ∧ (b.business_hours = [] → b.is_open_now = false) := by
  cases hb : b.business_hours with
  | nil => simp [Business.is_open_now, hb]
  | cons hd tl => simp [Business.is_open_now, hb]

/-- Witness for C6: a business with no hours entries reads closed, one whose
single entry's snapshot is true reads open. -/
theorem is_open_now_iff_first_entry_witness :
    bNoHours.business_hours = [] ∧ bNoHours.is_open_now = false
    ∧ bOpenNow.is_open_now = true :=
  ⟨rfl, (is_open_now_iff_first_entry bNoHours).2 rfl,
   (is_open_now_iff_first_entry bOpenNow).1.mpr
     ⟨{ is_open_now := true }, [], rfl, rfl⟩⟩

/-- C7: calling search with the connection scope never entered fails on the
guard with a `RuntimeError`: one invocation, zero HTTP requests, no backoff,
and the failure is neither retryable nor part of the Yelp error taxonomy. -/
theorem search_before_enter_fails_locally (outcomes : ℕ → AttemptOutcome) :
    (search_businesses_run false outcomes).result
      = .error (.runtimeError "Client not initialised. Use async context manager.")
    ∧ (search_businesses_run false outcomes).attemptsMade = 1
    ∧ (search_businesses_run false outcomes).httpRequests = 0
    ∧ (search_businesses_run false outcomes).backoffWaits = []
    ∧ PyExc.isYelpAPIError
        (.runtimeError "Client not initialised. Use async context manager.") = false
    ∧ retryCondition
        (.runtimeError "Client not initialised. Use async context manager.") = false := by
  rw [search_run_eq]
  exact ⟨rfl, rfl, rfl, rfl, rfl, rfl⟩

/-- C5: the tool layer is total — every raised exception (Yelp taxonomy or
unexpected) becomes an error payload with an empty business list, zero total
and count, and the exception's message; and a successful empty response with
total 0 yields the zero-count summary with no error field. -/
theorem tool_layer_never_raises (e : PyExc) :
    search_yelp_businesses (.error e) =
      { businesses := [], total := 0, count := 0
        summary := (if e.isYelpAPIError then "Error: " else "Unexpected error: ") ++ e.text
        error := some e.text }
    ∧ search_yelp_businesses (.ok { businesses := [], total := 0 }) =
      { businesses := [], total := 0, count := 0
        summary := "Found 0 businesses", error := none } := by
  constructor
  · cases he : e.isYelpAPIError <;> simp [search_yelp_businesses, he]
  · rfl

/-- C3: a 401 surfaces `YelpAuthError "Invalid Yelp API key"` and a 429
`YelpRateLimitError "Yelp API rate limit exceeded"`, distinct non-empty
messages, each after exactly one attempt (not retried); the tool layer
renders both as payloads with a non-empty error field and no businesses. -/
theorem auth_rate_limit_distinct_not_retried (body : JsonBody) (text : String) :
    (search_businesses_run true fun _ => .response 401 body text).result
      = .error (.yelpAuthError "Invalid Yelp API key")
    ∧ (search_businesses_run true fun _ => .response 401 body text).attemptsMade = 1
    ∧ (search_businesses_run true fun _ => .response 429 body text).result
      = .error (.yelpRateLimitError "Yelp API rate limit exceeded")
    ∧ (search_businesses_run true fun _ => .response 429 body text).attemptsMade = 1
    ∧ "Invalid Yelp API key" ≠ "Yelp API rate limit exceeded"
    ∧ (search_yelp_businesses (.error (.yelpAuthError "Invalid Yelp API key"))).error
        = some "Invalid Yelp API key"
    ∧ (search_yelp_businesses (.error (.yelpAuthError "Invalid Yelp API key"))).businesses = []
    ∧ (search_yelp_businesses
        (.error (.yelpRateLimitError "Yelp API rate limit exceeded"))).error
        = some "Yelp API rate limit exceeded"
    ∧ (search_yelp_businesses
        (.error (.yelpRateLimitError "Yelp API rate limit exceeded"))).businesses = []
    ∧ "Invalid Yelp API key" ≠ "" ∧ "Yelp API rate limit exceeded" ≠ "" := by
  rw [search_run_eq, search_run_eq]
  refine ⟨?_, rfl, ?_, rfl, by decide, rfl, rfl, rfl, rfl, by decide, by decide⟩
  · norm_num [search_businesses_body, searchAttempt, translateStatusError]
  · norm_num [search_businesses_body, searchAttempt, translateStatusError]

/-- C1 (refuting the claimed retry behaviour): any HTTP response with status
≥ 500 produces exactly one attempt, no backoff sleep, and an immediate
`YelpAPIError`.  The body translates the `HTTPStatusError` before the
decorator's predicate — which matches only raw httpx exceptions — can see
it, so the declared retry policy is unreachable. -/
theorem http5xx_single_attempt_no_backoff (status : ℤ) (body : JsonBody) (text : String)
    (h : 500 ≤ status) :
    (search_businesses_run true fun _ => .response status body text).result
      = .error (.yelpAPIError ("Yelp API error: " ++ text))
    ∧ (search_businesses_run true fun _ => .response status body text).attemptsMade = 1
    ∧ (search_businesses_run true fun _ => .response status body text).backoffWaits = [] := by
  rw [search_run_eq]
  refine ⟨?_, rfl, rfl⟩
  have h1 : ¬(200 ≤ status ∧ status < 300) := by omega
  have h2 : status ≠ 401 := by omega
  have h3 : status ≠ 429 := by omega
  have h4 : status ≠ 400 := by omega
  simp [search_businesses_body, searchAttempt, translateStatusError, h1, h2, h3, h4]

/-- Witness for C1's theorem at a concrete 500 response. -/
theorem http5xx_single_attempt_no_backoff_witness :
    (500 : ℤ) ≤ 500
    ∧ (search_businesses_run true fun _ =>
        .response 500 (.parsed (.obj [])) "Server Error").result
      = .error (.yelpAPIError ("Yelp API error: " ++ "Server Error"))
    ∧ (search_businesses_run true fun _ =>
        .response 500 (.parsed (.obj [])) "Server Error").attemptsMade = 1
    ∧ (search_businesses_run true fun _ =>
        .response 500 (.parsed (.obj [])) "Server Error").backoffWaits = [] :=
  ⟨by decide,
   (http5xx_single_attempt_no_backoff 500 (.parsed (.obj [])) "Server Error" (by decide)).1,
   (http5xx_single_attempt_no_backoff 500 (.parsed (.obj [])) "Server Error" (by decide)).2.1,
   (http5xx_single_attempt_no_backoff 500 (.parsed (.obj [])) "Server Error" (by decide)).2.2⟩

/-- C10: in a successful tool payload, a present-but-zero distance is
reported as null for both `distance_meters` and `distance_miles` (the
truthiness guard), while a strictly positive distance `d` is reported as
`round(d, 2)` meters and `round(d / 1609.34, 2)` miles. -/
theorem distance_zero_reported_null (resp : SearchResponse) :
    (search_yelp_businesses (.ok resp)).businesses = resp.businesses.map businessOut
    ∧ ∀ b ∈ resp.businesses,
        (b.distance = some 0 →
          (businessOut b).distance_meters = none ∧ (businessOut b).distance_miles = none)
        ∧ (∀ d : ℚ, b.distance = some d → 0 < d →
          (businessOut b).distance_meters = some (pyRound2 d)
          ∧ (businessOut b).distance_miles = some (pyRound2 (d / (160934 / 100)))) := by
  refine ⟨rfl, fun b _ => ⟨fun h0 => ?_, fun d hd hpos => ?_⟩⟩
  · constructor <;> simp [businessOut, h0]
  · constructor <;> simp [businessOut, hd, hpos.ne']

/-- Witness for C10 on a response holding a zero-distance business and a
500-meter business (500 m evaluating to 500.0 m and 0.31 mi). -/
theorem distance_zero_reported_null_witness :
    bZeroDistance ∈ respDistances.businesses
    ∧ bPosDistance ∈ respDistances.businesses
    ∧ bZeroDistance.distance = some 0
    ∧ bPosDistance.distance = some 500
    ∧ (0 : ℚ) < 500
    ∧ (businessOut bZeroDistance).distance_meters = none
    ∧ (businessOut bZeroDistance).distance_miles = none
    ∧ (businessOut bPosDistance).distance_meters = some (pyRound2 500)
    ∧ (businessOut bPosDistance).distance_miles = some (pyRound2 (500 / (160934 / 100)))
    ∧ pyRound2 500 = 500
    ∧ pyRound2 (500 / (160934 / 100)) = 31 / 100 := by
  have h := distance_zero_reported_null respDistances
  have hmemz : bZeroDistance ∈ respDistances.businesses := by simp [respDistances]
  have hmemp : bPosDistance ∈ respDistances.businesses := by simp [respDistances]
  refine ⟨hmemz, hmemp, rfl, rfl, by decide,
    ((h.2 bZeroDistance hmemz).1 rfl).1,
    ((h.2 bZeroDistance hmemz).1 rfl).2,
    ((h.2 bPosDistance hmemp).2 500 rfl (by decide)).1,
    ((h.2 bPosDistance hmemp).2 500 rfl (by decide)).2,
    ?_, ?_⟩
  · norm_num [pyRound2, pyRoundHalfEven]
  · norm_num [pyRound2, pyRoundHalfEven]

/-- C4 counterexample: on a 400 response whose body is not valid JSON, the
client does not surface a `YelpAPIError` at all — the decode error raised by
`e.response.json()` inside the handler escapes untranslated. -/
theorem http400_nonjson_escape_counterexample :
    (search_businesses_run true fun _ =>
        .response 400 (.invalid "Expecting value: line 1 column 1 (char 0)") "Bad Request").result
      = .error (.jsonDecodeError "Expecting value: line 1 column 1 (char 0)")
    ∧ PyExc.isYelpAPIError
        (.jsonDecodeError "Expecting value: line 1 column 1 (char 0)") = false := by
  rw [search_run_eq]
  refine ⟨?_, rfl⟩
  norm_num [search_businesses_body, searchAttempt, translateStatusError, translate400]

/-- C4 (amended): a 400 response whose body parses as a JSON object surfaces
`YelpAPIError` with message `"Bad request: "` followed by the upstream
`error.description` when present, else by the raw error text (`str(e)`,
also used when the `error` key is missing); when the body does not parse as
JSON the decode error escapes the client untranslated and is converted to an
error payload only at the tool layer. -/
theorem http400_bad_request_translation (kvs errKvs : List (String × JValue))
    (text desc : String) :
    (lookupKey kvs "error" = some (.obj errKvs) →
      lookupKey errKvs "description" = some (.str desc) →
      (search_businesses_run true fun _ => .response 400 (.parsed (.obj kvs)) text).result
        = .error (.yelpAPIError ("Bad request: " ++ desc)))
    ∧ (lookupKey kvs "error" = some (.obj errKvs) →
      lookupKey errKvs "description" = none →
      (search_businesses_run true fun _ => .response 400 (.parsed (.obj kvs)) text).result
        = .error (.yelpAPIError ("Bad request: " ++ text)))
    ∧ (lookupKey kvs "error" = none →
      (search_businesses_run true fun _ => .response 400 (.parsed (.obj kvs)) text).result
        = .error (.yelpAPIError ("Bad request: " ++ text)))
    ∧ (∀ t, (search_businesses_run true fun _ => .response 400 (.invalid t) text).result
        = .error (.jsonDecodeError t))
    ∧ (∀ t, search_yelp_businesses (.error (.jsonDecodeError t)) =
        { businesses := [], total := 0, count := 0
          summary := "Unexpected error: " ++ t, error := some t }) := by
  refine ⟨fun h1 h2 => ?_, fun h1 h2 => ?_, fun h1 => ?_, fun t => ?_, fun t => rfl⟩
  · rw [search_run_eq]
    norm_num [search_businesses_body, searchAttempt, translateStatusError, translate400,
      jsonGet, h1, h2, pyStr]
  · rw [search_run_eq]
    norm_num [search_businesses_body, searchAttempt, translateStatusError, translate400,
      jsonGet, h1, h2, pyStr]
  · rw [search_run_eq]
    norm_num [search_businesses_body, searchAttempt, translateStatusError, translate400,
      jsonGet, h1]
    simp [lookupKey, pyStr]
  · rw [search_run_eq]
    norm_num [search_businesses_body, searchAttempt, translateStatusError, translate400]

/-- Witness for C4's amended theorem at a concrete 400 body carrying an
upstream description, and a concrete non-JSON 400 body. -/
theorem http400_bad_request_translation_witness :
    lookupKey kvs400 "error" = some (.obj errKvs400)
    ∧ lookupKey errKvs400 "description" = some (.str "Invalid location parameter")
    ∧ (search_businesses_run true fun _ =>
        .response 400 (.parsed (.obj kvs400)) "Bad Request").result
      = .error (.yelpAPIError ("Bad request: " ++ "Invalid location parameter"))
    ∧ (search_businesses_run true fun _ =>
        .response 400 (.invalid "Expecting value") "Bad Request").result
      = .error (.jsonDecodeError "Expecting value") :=
  ⟨rfl, rfl,
   (http400_bad_request_translation kvs400 errKvs400 "Bad Request"
      "Invalid location parameter").1 rfl rfl,
   (http400_bad_request_translation kvs400 errKvs400 "Bad Request"
      "Invalid location parameter").2.2.2.1 "Expecting value"⟩

/-- C9 counterexample: the model accepts a business whose rating is 6,
review count is -3 and distance is -2 — construction does not enforce the
claimed bounds. -/
theorem out_of_range_business_accepted :
    parseBusiness badBusinessJson = .ok badBusiness
    ∧ badBusiness.rating = 6 ∧ ¬((6 : ℚ) ≤ 5)
    ∧ badBusiness.review_count = -3 ∧ ¬((0 : ℤ) ≤ -3)
    ∧ badBusiness.distance = some (-2) ∧ ¬((0 : ℚ) ≤ -2) :=
  ⟨rfl, rfl, by decide, rfl, by decide, rfl, by decide⟩

/-- C9 (amended): construction from a parsed response performs structural
validation only; any rating and distance values (bounds included) are
accepted verbatim, as is the fixed negative review count of the probe. -/
theorem construction_structural_only (q d : ℚ) :
    parseBusiness (businessProbeJson q d) = .ok (businessProbe q d) := rfl

/-- C8: for every `Business` constructed from a JSON object, the derived
accessors agree with the input — the address accessor joins the display-line
sequence with ", " (empty sequence giving ""), the categories accessor joins
the category titles in source order, the price-level accessor equals the
character count of the transmitted price string (absent price giving 0), and
the menu-URL accessor reads the attributes' menu URL exactly when the
`Attributes` object is present. -/
theorem business_roundtrip (kvs : List (String × JValue)) (b : Business)
    (hp : parseBusiness (.obj kvs) = .ok b) :
    b.get_address_str = String.intercalate ", " b.location.display_address
    ∧ (b.location.display_address = [] → b.get_address_str = "")
    ∧ b.get_categories_str = String.intercalate ", " (b.categories.map Category.title)
    ∧ (∀ items, lookupKey kvs "categories" = some (.arr items) →
        items.mapM parseCategory = .ok b.categories)
    ∧ (∀ s, lookupKey kvs "price" = some (.str s) →
        b.price = some s ∧ b.get_price_level = s.length)
    ∧ (lookupKey kvs "price" = none → b.price = none ∧ b.get_price_level = 0)
    ∧ (∀ a, b.attributes = some a → b.get_menu_url = a.menu_url)
    ∧ (b.attributes = none → b.get_menu_url = none) := by
  rw [parseBusiness] at hp
  obtain ⟨xid, hid, hp⟩ := exceptBind_ok _ _ _ hp
  obtain ⟨xalias, halias, hp⟩ := exceptBind_ok _ _ _ hp
  obtain ⟨xname, hname, hp⟩ := exceptBind_ok _ _ _ hp
  obtain ⟨ximg, himg, hp⟩ := exceptBind_ok _ _ _ hp
  obtain ⟨xclosed, hclosed, hp⟩ := exceptBind_ok _ _ _ hp
  obtain ⟨xurl, hurl, hp⟩ := exceptBind_ok _ _ _ hp
  obtain ⟨xrc, hrc, hp⟩ := exceptBind_ok _ _ _ hp
  obtain ⟨xcats, hcats, hp⟩ := exceptBind_ok _ _ _ hp
  obtain ⟨xrat, hrat, hp⟩ := exceptBind_ok _ _ _ hp
  obtain ⟨xcoord, hcoord, hp⟩ := exceptBind_ok _ _ _ hp
  obtain ⟨xtrans, htrans, hp⟩ := exceptBind_ok _ _ _ hp
  obtain ⟨xprice, hprice, hp⟩ := exceptBind_ok _ _ _ hp
  obtain ⟨xloc, hloc, hp⟩ := exceptBind_ok _ _ _ hp
  obtain ⟨xphone, hphone, hp⟩ := exceptBind_ok _ _ _ hp
  obtain ⟨xdphone, hdphone, hp⟩ := exceptBind_ok _ _ _ hp
  obtain ⟨xdist, hdist, hp⟩ := exceptBind_ok _ _ _ hp
  obtain ⟨xbh, hbh, hp⟩ := exceptBind_ok _ _ _ hp
  obtain ⟨xattr, hattr, hp⟩ := exceptBind_ok _ _ _ hp
  injection hp with hb
  subst hb
  refine ⟨rfl, ?_, rfl, ?_, ?_, ?_, ?_, ?_⟩
  · intro h0
    rw [Business.get_address_str] at *
    simp only at h0 ⊢
    rw [h0]
    rfl
  · intro items hitems
    simp only [defField, hitems] at hcats
    simp only [asList] at hcats
    exact hcats
  · intro s hs
    simp only [optField, hs] at hprice
    simp only [asStr, Bind.bind, Except.bind] at hprice
    injection hprice with hp5
    subst hp5
    constructor
    · rfl
    · rcases eq_or_ne s "" with rfl | hs0
      · simp [Business.get_price_level]
      · simp [Business.get_price_level, hs0]
  · intro hs
    simp only [optField, hs] at hprice
    injection hprice with hp5
    subst hp5
    exact ⟨rfl, rfl⟩
  · intro a ha
    have ha2 : xattr = some a := ha
    simp [Business.get_menu_url, ha2]
  · intro ha
    have ha2 : xattr = none := ha
    simp [Business.get_menu_url, ha2]

/-- Witness for C8 on the fully-populated JSON business `kvsFull`, whose
price `"££"` reads back as a price level of 2, address as the joined display
lines, categories as the joined titles, and menu URL as the attributes'. -/
theorem business_roundtrip_witness :
    parseBusiness (.obj kvsFull) = .ok bFull
    ∧ lookupKey kvsFull "price" = some (.str "££")
    ∧ bFull.price = some "££"
    ∧ bFull.get_price_level = "££".length
    ∧ "££".length = 2
    ∧ bFull.get_address_str = String.intercalate ", " bFull.location.display_address
    ∧ bFull.get_address_str = "123 Test St, London"
    ∧ bFull.get_categories_str = "Italian, Pizza"
    ∧ ([.obj [("alias", .str "italian"), ("title", .str "Italian")],
        .obj [("alias", .str "pizza"), ("title", .str "Pizza")]] : List JValue).mapM parseCategory
        = .ok bFull.categories
    ∧ bFull.attributes = some { menu_url := some "https://example.com/menu" }
    ∧ bFull.get_menu_url = some "https://example.com/menu"
    ∧ bFull.is_open_now = true := by
  have h := business_roundtrip kvsFull bFull rfl
  exact ⟨rfl, rfl,
    (h.2.2.2.2.1 "££" rfl).1,
    (h.2.2.2.2.1 "££" rfl).2,
    by decide,
    h.1,
    by decide,
    by decide,
    h.2.2.2.1 _ rfl,
    rfl,
    h.2.2.2.2.2.2.1 { menu_url := some "https://example.com/menu" } rfl,
    rfl⟩

end VenueRec
